import Mathlib

/-!
# Verification of the sqlite ORM layer (`orm.py`)

Shallow embedding of the mapping layer: schema synthesizer (`render_schema`),
generic repository (`Manager`), and query builder (`QueryBuilder`).
Python dictionaries (`vars(obj)`, `**kwargs`) are modelled as insertion-ordered
association lists; the external SQLite engine is modelled semantically as a
table value (rows, an AUTOINCREMENT sequence counter, and a ghost list of
every id the engine ever generated).
-/

/-- Python runtime values stored in record attributes and table cells.
`none` models SQL NULL / Python None. -/
inductive Value where
  | int (n : Int)
  | str (s : String)
  | none
deriving DecidableEq, Repr

/-- The Python type objects that can appear as class-attribute values in a
model declaration (`name = str`, `age = int`, ...); `other` stands for any
class attribute that is not one of the three primitive type objects. -/
inductive PyType where
  | str
  | int
  | float
  | other
deriving DecidableEq, Repr

/-- An entity model class: its `__name__` and `vars(model)` as an ordered
(attribute name, attribute value) list, in declaration order. -/
structure Model where
  name : String
  attrs : List (String × PyType)
deriving DecidableEq, Repr

/-- A record object's `vars(obj)`: an insertion-ordered attribute dictionary.
The `id` attribute, when set, is an entry with key `"id"`. -/
abbrev Record := List (String × Value)

/-- Whether `sub` occurs as a contiguous subsequence of `l`. -/
def containsSeq (sub : List Char) : List Char → Bool
  | [] => sub.isEmpty
  | c :: cs => sub.isPrefixOf (c :: cs) || containsSeq sub cs

/-- Python's `sub in s` substring test on strings. -/
def strMem (sub s : String) : Bool :=
  containsSeq sub.toList s.toList

/-- `cut_attrs(obj, keys)` from `orm.py`:
`dict(i for i in vars(obj).items() if i[0] not in keys)`.
`keys` is a *string*, so `i[0] not in keys` is a substring test: every
attribute whose name is a substring of `keys` is removed. -/
def cut_attrs (obj : Record) (keys : String) : Record :=
  obj.filter (fun p => !(strMem p.1 keys))

/-- Dictionary lookup (`d[k]` / `d.get(k)`). -/
def getAttr (r : Record) (k : String) : Option Value :=
  (r.find? (fun p => p.1 == k)).map (·.2)

/-- `hasattr(obj, k)`. -/
def hasAttr (r : Record) (k : String) : Bool :=
  r.any (fun p => p.1 == k)

/-- Python attribute assignment `obj.k = v`: updates the entry in place when
the key exists, otherwise appends it (CPython dict insertion order). -/
def setAttr (r : Record) (k : String) (v : Value) : Record :=
  if hasAttr r k then r.map (fun p => if p.1 == k then (k, v) else p)
  else r ++ [(k, v)]

/-- The `datatypes` mapping of `render_schema`:
`{str: 'text', int: 'integer', float: 'real'}` as a partial map. -/
def datatypes : PyType → Option String
  | PyType.str => some "text"
  | PyType.int => some "integer"
  | PyType.float => some "real"
  | PyType.other => Option.none

/-- Python's `key[0] is '_'` for an attribute name (nonempty identifier):
whether the first character is an underscore. -/
def firstIsUnderscore (key : String) : Bool :=
  match key.toList with
  | [] => false
  | c :: _ => c == '_'

/-- `iscol = lambda key, value: key[0] is not '_' and value in datatypes.keys()`. -/
def iscol (key : String) (value : PyType) : Bool :=
  !(firstIsUnderscore key) && (datatypes value).isSome

/-- `colrender = lambda key, value: '%s %s' % (key, datatypes[value])`. -/
def colrender (key : String) (value : PyType) : String :=
  key ++ " " ++ ((datatypes value).getD "")

/-- `render_schema(model)` from `orm.py`: formats
`create table {table} (id integer primary key autoincrement, {columns});`
with the comma-joined rendered columns of `vars(model)` that pass `iscol`,
in declaration order. -/
def render_schema (model : Model) : String :=
  let cols := (model.attrs.filter (fun p => iscol p.1 p.2)).map
    (fun p => colrender p.1 p.2)
  "create table " ++ model.name ++
    " (id integer primary key autoincrement, " ++
    String.intercalate ", " cols ++ ");"

/-- The error kinds the layer can surface (spec taxonomy): `duplicateId`
for `save` on a colliding id, `notFound` for `get` on a missing id,
`invalidColumn` for the query builder's column validation,
`noSuchColumn` for the engine rejecting an INSERT/UPDATE naming an
undeclared column, and `sqlSyntax` for the engine rejecting a malformed
statement (e.g. `insert into t () values ()` when `cut_attrs` leaves no
attribute, which sqlite3 refuses with `near ")": syntax error`). -/
inductive Err where
  | duplicateId
  | notFound
  | invalidColumn
  | noSuchColumn
  | sqlSyntax
deriving DecidableEq, Repr

/-- The SQLite table backing one model, modelled semantically.
`cols` are the declared non-id columns in order, `seq` is the
AUTOINCREMENT sequence (the largest rowid ever issued), `rows` maps each
live rowid to its full (column name, cell) row, and `assigned` is a ghost
log of every rowid the engine ever generated for this table. -/
structure Table where
  cols : List String
  seq : Int
  rows : List (Int × Record)
  assigned : List Int
deriving Repr

namespace Manager

/-- `Manager.has(id)`: `select id from <table> where id = ?` is nonempty. -/
def has (t : Table) (i : Int) : Bool :=
  t.rows.any (fun r => r.1 == i)

/-- `Manager.create(**kwargs)`: `obj.__dict__ = kwargs`. -/
def create (kwargs : Record) : Record :=
  kwargs

/-- `Manager.get(id)`: `select * from <table> where id = ?`; raises when no
row matches, else hydrates the row (whose first column is `id`). -/
def get (t : Table) (i : Int) : Except Err Record :=
  match t.rows.find? (fun r => r.1 == i) with
  | Option.none => Except.error Err.notFound
  | some (j, row) => Except.ok (create (("id", Value.int j) :: row))

/-- `Manager.save(obj)`: raises DuplicateId when `obj` has an `id` attribute
already present in the table; otherwise inserts `cut_attrs(obj, 'id')`
(column list and `?` placeholders), the engine fills unspecified declared
columns with NULL and issues rowid `seq + 1`, and `obj.id` is set to
`cursor.lastrowid`.  The engine rejects a malformed statement first: when
`cut_attrs` leaves no attribute the built SQL is `insert into t () values ()`,
a sqlite3 syntax error, so save raises and the table is unchanged.  An
attribute naming an undeclared column also makes the engine reject the
INSERT, leaving the table unchanged.  A non-int `id` attribute never matches
an integer rowid in `has`. -/
def save (t : Table) (obj : Record) : Table × Except Err Record :=
  let dup := match getAttr obj "id" with
    | some (Value.int i) => has t i
    | some _ => false
    | Option.none => false
  if dup then (t, Except.error Err.duplicateId)
  else
    let copy_ := cut_attrs obj "id"
    if copy_.isEmpty then (t, Except.error Err.sqlSyntax)
    else if copy_.all (fun p => t.cols.contains p.1) then
      let newId := t.seq + 1
      let row := t.cols.map (fun c => (c, (getAttr copy_ c).getD Value.none))
      ({ cols := t.cols, seq := newId,
         rows := t.rows ++ [(newId, row)],
         assigned := t.assigned ++ [newId] },
       Except.ok (setAttr obj "id" (Value.int newId)))
    else (t, Except.error Err.noSuchColumn)

/-- `Manager.update(obj)`: `UPDATE <table> SET k1 = ?, ... WHERE id = ?` with
the keys/values of `cut_attrs(obj, 'id')`; overwrites the named cells of the
row whose id matches `obj.id`, a no-op when no row matches.  When `cut_attrs`
leaves no attribute the built SQL is `UPDATE t SET = ? WHERE id = ?`, a
sqlite3 syntax error, so the engine rejects it; an undeclared column also
makes the engine reject the statement. -/
def update (t : Table) (obj : Record) : Table × Option Err :=
  let copy_ := cut_attrs obj "id"
  if copy_.isEmpty then (t, some Err.sqlSyntax)
  else if copy_.all (fun p => t.cols.contains p.1) then
    let i := match getAttr obj "id" with
      | some (Value.int n) => n
      | _ => 0
    ({ t with rows := t.rows.map (fun r =>
        if r.1 == i then
          (r.1, r.2.map (fun c =>
            match getAttr copy_ c.1 with
            | some v => (c.1, v)
            | Option.none => c))
        else r) }, Option.none)
  else (t, some Err.noSuchColumn)

end Manager

/-- `valid_keyvals` of `QueryBuilder.filter` / `select`:
`dict(i for i in vars(self.model).items() if i[0] is not '_')` — note it only
excludes underscore-initial attributes, it does not require a primitive
type. -/
def valid_keyvals (model : Model) : List (String × PyType) :=
  model.attrs.filter (fun p => !(firstIsUnderscore p.1))

/-- A query builder instance: its model and the mutable `query_tokens`
buffer. -/
structure QueryBuilder where
  model : Model
  query_tokens : List String
deriving Repr

namespace QueryBuilder

/-- The loop body of `filter`: for each `key, value` in `kwargs.items()`,
either extend the buffer with `[key, comparator, str(value), boolean]` or
raise `Invalid column`; the raise aborts the loop with the buffer as
mutated so far. -/
def filterLoop (valid : List String) (comparator boolean : String) :
    List (String × String) → List String → List String × Option Err
  | [], toks => (toks, Option.none)
  | (key, value) :: rest, toks =>
    if valid.contains key then
      filterLoop valid comparator boolean rest
        (toks ++ [key, comparator, value, boolean])
    else (toks, some Err.invalidColumn)

/-- `QueryBuilder.filter(comparator, boolean, **kwargs)` from `orm.py`:
runs the loop above over the kwargs in call order; if no error was raised
and the buffer is nonempty, drops the buffer's final token
(`self.query_tokens = self.query_tokens[:-1]`); kwargs values are already
rendered by `str(value)`. -/
def filter (qb : QueryBuilder) (comparator boolean : String)
    (kwargs : List (String × String)) : QueryBuilder × Option Err :=
  match filterLoop ((valid_keyvals qb.model).map (·.1)) comparator boolean
      kwargs qb.query_tokens with
  | (toks, some e) => ({ qb with query_tokens := toks }, some e)
  | (toks, Option.none) =>
    ({ qb with query_tokens := if toks.length > 0 then toks.dropLast else toks },
     Option.none)

/-- `QueryBuilder.limit(num)`: appends `['limit', str(num)]`. -/
def limit (qb : QueryBuilder) (num : Nat) : QueryBuilder :=
  { qb with query_tokens := qb.query_tokens ++ ["limit", toString num] }

/-- `QueryBuilder.delete()`: the SQL text handed to `execute`, namely
`"delete from %s where %s" % (name, " ".join(query_tokens))` — the tokens,
filter values included, are joined straight into the statement and no
parameter is passed. -/
def deleteSql (qb : QueryBuilder) : String :=
  "delete from " ++ qb.model.name ++ " where " ++
    String.intercalate " " qb.query_tokens

/-- `QueryBuilder.update(**kwargs)` from `orm.py` is literally
`pass`: the builder is untouched, no SQL text is produced for `execute`
(`Option.none` in the second component), and no error is raised
(`Option.none` in the third). -/
def update (qb : QueryBuilder) (_kwargs : List (String × String)) :
    QueryBuilder × Option String × Option Err :=
  (qb, Option.none, Option.none)

end QueryBuilder

/-- The spec's fixed primitive→SQL-type table {string→text, integer→integer,
real→real}, written from the spec's words for comparison with `render_schema`. -/
def specSqlType : PyType → String
  | PyType.str => "text"
  | PyType.int => "integer"
  | PyType.float => "real"
  | PyType.other => "<non-primitive>"

/-- The persisted field names of a descriptor: the declared, primitive,
non-internal attributes, in declaration order (these are exactly the non-id
columns `render_schema` emits). -/
def modelFields (m : Model) : List String :=
  (m.attrs.filter (fun p => iscol p.1 p.2)).map (·.1)

/-- The names of a record's non-id fields, in order. -/
def nonIdKeys (r : Record) : List String :=
  (r.filter (fun p => !(p.1 == "id"))).map (·.1)

/-- The spec's running example descriptor: `Person` with fields
`{name: string, age: integer}`. -/
def Person : Model :=
  ⟨"Person", [("name", PyType.str), ("age", PyType.int)]⟩

/-- A fresh query builder over `Person` (empty token buffer). -/
def personQB : QueryBuilder :=
  ⟨Person, []⟩

/-- The `Person` table holding one row `{id: 1, name: "a", age: 3}` with
sequence counter 1. -/
def personTable : Table :=
  ⟨["name", "age"], 1, [(1, [("name", Value.str "a"), ("age", Value.int 3)])], [1]⟩

/-- An empty table with declared columns `d` and `x` — `d` is a field name
that is a substring of the string `'id'`, while `x` keeps the INSERT's
column list non-empty. -/
def dxTable : Table :=
  ⟨["d", "x"], 0, [], []⟩

/-! ## Helper lemmas -/

theorem filterLoop_all_valid (valid : List String) (comparator boolean : String)
    (kwargs : List (String × String)) :
    ∀ toks : List String, (∀ p ∈ kwargs, valid.contains p.1 = true) →
      QueryBuilder.filterLoop valid comparator boolean kwargs toks
        = (toks ++ kwargs.flatMap (fun p => [p.1, comparator, p.2, boolean]),
           Option.none) := by
  induction kwargs with
  | nil => intro toks _; simp [QueryBuilder.filterLoop]
  | cons p rest ih =>
    intro toks hv
    obtain ⟨k, v⟩ := p
    have hk : valid.contains k = true := hv (k, v) (by simp)
    rw [QueryBuilder.filterLoop, if_pos hk, ih _ (fun q hq => hv q (by simp [hq]))]
    simp

theorem filterLoop_until_invalid (valid : List String) (comparator boolean : String)
    (pre : List (String × String)) (k v : String) (rest : List (String × String)) :
    ∀ toks : List String, (∀ p ∈ pre, valid.contains p.1 = true) →
      valid.contains k = false →
      QueryBuilder.filterLoop valid comparator boolean (pre ++ (k, v) :: rest) toks
        = (toks ++ pre.flatMap (fun p => [p.1, comparator, p.2, boolean]),
           some Err.invalidColumn) := by
  induction pre with
  | nil =>
    intro toks _ hk
    rw [List.nil_append, QueryBuilder.filterLoop,
      if_neg (by simp only [hk]; exact Bool.false_ne_true)]
    simp
  | cons p pre ih =>
    intro toks hv hk
    obtain ⟨k', v'⟩ := p
    have hk' : valid.contains k' = true := hv (k', v') (by simp)
    rw [List.cons_append, QueryBuilder.filterLoop, if_pos hk',
      ih _ (fun q hq => hv q (by simp [hq])) hk]
    simp

theorem flatMap_clause_getLast (comparator boolean : String)
    (kwargs : List (String × String)) (hne : kwargs ≠ []) :
    (kwargs.flatMap (fun p => [p.1, comparator, p.2, boolean])).getLast?
      = some boolean := by
  induction kwargs with
  | nil => exact absurd rfl hne
  | cons p rest ih =>
    cases rest with
    | nil => rfl
    | cons q rs =>
      rw [List.flatMap_cons, List.getLast?_append_of_ne_nil _ (by simp),
        ih (by simp)]

theorem getAttr_cons (a : String) (b : Value) (r : Record) (k : String) :
    getAttr ((a, b) :: r) k = if a == k then some b else getAttr r k := by
  by_cases h : (a == k) = true
  · simp [getAttr, List.find?_cons, h]
  · have h' : (a == k) = false := by simpa using h
    simp [getAttr, List.find?_cons, h']

theorem hasAttr_cons (a : String) (b : Value) (r : Record) (k : String) :
    hasAttr ((a, b) :: r) k = ((a == k) || hasAttr r k) := by
  simp [hasAttr]

theorem nonIdKeys_map_replace (r : Record) (v : Value) :
    nonIdKeys (r.map (fun p => if p.1 == "id" then ("id", v) else p))
      = nonIdKeys r := by
  induction r with
  | nil => rfl
  | cons p r ih =>
    obtain ⟨k, w⟩ := p
    by_cases hk : k = "id"
    · subst hk
      simp only [List.map_cons]
      simpa [nonIdKeys] using ih
    · have hk' : (k == "id") = false := by simpa using hk
      simp only [List.map_cons, if_neg (by simp [hk'] : ¬((k, w).1 == "id") = true)]
      simpa [nonIdKeys, hk'] using ih

theorem nonIdKeys_setAttr_id (r : Record) (v : Value) :
    nonIdKeys (setAttr r "id" v) = nonIdKeys r := by
  unfold setAttr
  split
  · exact nonIdKeys_map_replace r v
  · simp [nonIdKeys, List.filter_append]

theorem nonIdKeys_of_keys_eq (row : Record) :
    ∀ cols : List String, row.map Prod.fst = cols → cols.contains "id" = false →
      nonIdKeys row = cols := by
  induction row with
  | nil => intro cols h _; simp [nonIdKeys, ← h]
  | cons p row ih =>
    intro cols h hid
    obtain ⟨k, v⟩ := p
    subst h
    rw [List.map_cons, List.contains_cons, Bool.or_eq_false_iff] at hid
    have hk : (k == "id") = false := by
      have h1 : "id" ≠ k := by simpa using hid.1
      simpa using fun hc => h1 hc.symm
    have ihr := ih (row.map Prod.fst) rfl hid.2
    simp only [nonIdKeys] at ihr ⊢
    simp [List.filter_cons, hk, ihr]

theorem getAttr_append_single (r : Record) (k : String) (v : Value)
    (h : hasAttr r k = false) : getAttr (r ++ [(k, v)]) k = some v := by
  induction r with
  | nil => simp [getAttr]
  | cons p r ih =>
    obtain ⟨a, b⟩ := p
    rw [hasAttr_cons, Bool.or_eq_false_iff] at h
    rw [List.cons_append, getAttr_cons, if_neg (by simp only [h.1]; exact Bool.false_ne_true)]
    exact ih h.2

theorem getAttr_map_replace (r : Record) (k : String) (v : Value)
    (h : hasAttr r k = true) :
    getAttr (r.map (fun p => if p.1 == k then (k, v) else p)) k = some v := by
  induction r with
  | nil => simp [hasAttr] at h
  | cons p r ih =>
    obtain ⟨a, b⟩ := p
    by_cases hp : (a == k) = true
    · have ha : a = k := by simpa using hp
      subst ha
      simp only [List.map_cons, if_pos hp]
      rw [getAttr_cons, if_pos (by simp)]
    · have hp' : (a == k) = false := by simpa using hp
      rw [hasAttr_cons, hp', Bool.false_or] at h
      simp only [List.map_cons, if_neg (by simp [hp'] : ¬((a, b).1 == k) = true)]
      rw [getAttr_cons, if_neg (by simp only [hp']; exact Bool.false_ne_true)]
      exact ih h

theorem getAttr_setAttr_self (r : Record) (k : String) (v : Value) :
    getAttr (setAttr r k v) k = some v := by
  unfold setAttr
  split
  · exact getAttr_map_replace r k v (by assumption)
  · exact getAttr_append_single r k v (by simp_all)

theorem filter_all_valid (qb : QueryBuilder) (comparator boolean : String)
    (kwargs : List (String × String))
    (hv : ∀ p ∈ kwargs, ((valid_keyvals qb.model).map (·.1)).contains p.1 = true)
    (hne : kwargs ≠ []) :
    qb.filter comparator boolean kwargs
      = ({ qb with query_tokens := qb.query_tokens
            ++ (kwargs.flatMap (fun p => [p.1, comparator, p.2, boolean])).dropLast },
         Option.none) := by
  have hcl : kwargs.flatMap (fun p => [p.1, comparator, p.2, boolean]) ≠ [] := by
    cases kwargs with
    | nil => exact absurd rfl hne
    | cons p rest => simp
  unfold QueryBuilder.filter
  rw [filterLoop_all_valid _ _ _ _ _ hv]
  have hlen : (qb.query_tokens
      ++ kwargs.flatMap (fun p => [p.1, comparator, p.2, boolean])).length > 0 := by
    rw [List.length_append]
    have := List.length_pos.mpr hcl
    omega
  dsimp only
  rw [if_pos hlen, List.dropLast_append_of_ne_nil _ hcl]

/-! ## Claim theorems -/

/-- C1 (code bug evaluation): `cut_attrs(obj, 'id')` tests substring
membership in the string `'id'`, so the declared field named `d` is dropped
from the INSERT while `x` survives; saving `{d: 5, x: 1}` into the empty
`d, x` table succeeds and returns the record with `id = 1`, but `get(1)`
then yields `d = NULL`, not the saved value — the save/get round trip of
the claim fails. -/
theorem c1_save_get_drops_substring_field :
    strMem "d" "id" = true
    ∧ cut_attrs [("d", Value.int 5), ("x", Value.int 1)] "id" = [("x", Value.int 1)]
    ∧ (Manager.save dxTable [("d", Value.int 5), ("x", Value.int 1)]).2
        = Except.ok [("d", Value.int 5), ("x", Value.int 1), ("id", Value.int 1)]
    ∧ Manager.get (Manager.save dxTable [("d", Value.int 5), ("x", Value.int 1)]).1 1
        = Except.ok [("id", Value.int 1), ("d", Value.none), ("x", Value.int 1)]
    ∧ getAttr [("id", Value.int 1), ("d", Value.none), ("x", Value.int 1)] "d"
        ≠ some (Value.int 5) :=
  ⟨rfl, rfl, rfl, rfl, by decide⟩

/-- C2: `Manager.save` on a record whose `id` attribute is an integer already
present in the table raises DuplicateId before any INSERT is issued, and the
table is returned exactly as it was. -/
theorem c2_duplicate_save_table_unchanged (t : Table) (obj : Record) (i : Int)
    (hid : getAttr obj "id" = some (Value.int i))
    (hhas : Manager.has t i = true) :
    Manager.save t obj = (t, Except.error Err.duplicateId) := by
  simp only [Manager.save, hid]
  simp [hhas]

theorem c2_duplicate_save_table_unchanged_witness :
    Manager.save personTable [("id", Value.int 1), ("age", Value.int 4)]
      = (personTable, Except.error Err.duplicateId) :=
  c2_duplicate_save_table_unchanged personTable _ 1 (by decide) (by decide)

/-- C3: `render_schema` emits
`create table <Name> (id integer primary key autoincrement, <field> <type>, ...)`
with the declared columns in declaration order under the mapping
{string→text, integer→integer, real→real}; for the `Person` descriptor it
emits exactly the string of the claim. -/
theorem c3_render_schema_format (m : Model)
    (h : ∀ p ∈ m.attrs, firstIsUnderscore p.1 = false ∧ p.2 ≠ PyType.other) :
    render_schema m
      = "create table " ++ m.name ++ " (id integer primary key autoincrement, "
        ++ String.intercalate ", "
            (m.attrs.map (fun p => p.1 ++ " " ++ specSqlType p.2)) ++ ");"
    ∧ render_schema Person
      = "create table Person (id integer primary key autoincrement, name text, age integer);" := by
  constructor
  · have hf : m.attrs.filter (fun p => iscol p.1 p.2) = m.attrs := by
      rw [List.filter_eq_self]
      intro p hp
      obtain ⟨h1, h2⟩ := h p hp
      unfold iscol
      rw [h1]
      cases hv : p.2
      · rfl
      · rfl
      · rfl
      · exact absurd hv h2
    have hm : m.attrs.map (fun p => colrender p.1 p.2)
        = m.attrs.map (fun p => p.1 ++ " " ++ specSqlType p.2) := by
      apply List.map_congr_left
      intro p hp
      obtain ⟨_, h2⟩ := h p hp
      cases hv : p.2
      · rfl
      · rfl
      · rfl
      · exact absurd hv h2
    simp only [render_schema]
    rw [hf, hm]
  · decide

theorem c3_render_schema_format_witness :
    render_schema Person
      = "create table " ++ Person.name ++ " (id integer primary key autoincrement, "
        ++ String.intercalate ", "
            (Person.attrs.map (fun p => p.1 ++ " " ++ specSqlType p.2)) ++ ");" :=
  (c3_render_schema_format Person (by decide)).1

/-- C4 (code bug evaluation): the query builder joins `str(value)` straight
into the SQL text and `delete()` passes no parameters, so two runs differing
only in the filter value hand different SQL strings to `execute` — values
are interpolated, not bound. -/
theorem c4_filter_values_interpolated :
    QueryBuilder.deleteSql ((personQB.filter "=" "AND" [("age", "30")]).1)
      = "delete from Person where age = 30"
    ∧ QueryBuilder.deleteSql ((personQB.filter "=" "AND" [("age", "31")]).1)
      = "delete from Person where age = 31"
    ∧ QueryBuilder.deleteSql ((personQB.filter "=" "AND" [("age", "30")]).1)
      ≠ QueryBuilder.deleteSql ((personQB.filter "=" "AND" [("age", "31")]).1) := by
  decide

/-- C5 (counterexample): `filter()` called on a builder whose buffer already
holds a limit token does not fail — it appends its clauses after the limit
token, so the limit token is no longer final. -/
theorem c5_filter_after_limit_succeeds :
    ((personQB.limit 1).filter "=" "AND" [("age", "30")]).2 = (Option.none : Option Err)
    ∧ ((personQB.limit 1).filter "=" "AND" [("age", "30")]).1.query_tokens
        = ["limit", "1", "age", "=", "30"]
    ∧ ["limit", "1", "age", "=", "30"].getLast? ≠ some "limit" := by
  decide

/-- C5 (amended): with a limit token already in the buffer, a `filter()` call
whose fields are all valid succeeds (no error), appends its clauses after the
existing tokens with the trailing token stripped, and the limit token is
still in the buffer (no longer final). -/
theorem c5_filter_after_limit_amended (qb : QueryBuilder) (comparator boolean : String)
    (kwargs : List (String × String))
    (hv : ∀ p ∈ kwargs, ((valid_keyvals qb.model).map (·.1)).contains p.1 = true)
    (hne : kwargs ≠ [])
    (hlim : "limit" ∈ qb.query_tokens) :
    (qb.filter comparator boolean kwargs).2 = Option.none
    ∧ (qb.filter comparator boolean kwargs).1.query_tokens
        = qb.query_tokens
          ++ (kwargs.flatMap (fun p => [p.1, comparator, p.2, boolean])).dropLast
    ∧ "limit" ∈ (qb.filter comparator boolean kwargs).1.query_tokens := by
  rw [filter_all_valid qb comparator boolean kwargs hv hne]
  exact ⟨rfl, rfl, List.mem_append_left _ hlim⟩

theorem c5_filter_after_limit_amended_witness :
    ((personQB.limit 1).filter "=" "AND" [("age", "30")]).2 = Option.none
    ∧ ((personQB.limit 1).filter "=" "AND" [("age", "30")]).1.query_tokens
        = (personQB.limit 1).query_tokens
          ++ ([("age", "30")].flatMap (fun p => [p.1, "=", p.2, "AND"])).dropLast
    ∧ "limit" ∈ ((personQB.limit 1).filter "=" "AND" [("age", "30")]).1.query_tokens :=
  c5_filter_after_limit_amended (personQB.limit 1) "=" "AND" [("age", "30")]
    (by decide) (by decide) (by decide)

/-- C6 (counterexample): `QueryBuilder.update` with an undeclared field does
not fail with InvalidColumn and hands no UPDATE statement to `execute` — the
method body is `pass`. -/
theorem c6_update_no_validation :
    QueryBuilder.update personQB [("bogus", "1")]
      = (personQB, Option.none, Option.none)
    ∧ (Option.none : Option Err) ≠ some Err.invalidColumn := by
  exact ⟨rfl, by decide⟩

/-- C6 (amended): `QueryBuilder.update` is an unimplemented stub: for every
builder and every field assignment it validates nothing, produces no SQL
text and raises no error, returning the builder untouched. -/
theorem c6_update_is_stub (qb : QueryBuilder) (kwargs : List (String × String)) :
    QueryBuilder.update qb kwargs = (qb, Option.none, Option.none) :=
  rfl

/-- C7 (counterexample): a single `filter()` call with two valid pairs
appends the clauses in the order the pairs were supplied, not sorted by
field name — `name` precedes `age` here. -/
theorem c7_filter_not_sorted :
    (personQB.filter "=" "AND" [("name", "x"), ("age", "30")]).1.query_tokens
      = ["name", "=", "x", "AND", "age", "=", "30"]
    ∧ ["name", "=", "x", "AND", "age", "=", "30"]
      ≠ ["age", "=", "30", "AND", "name", "=", "x"] := by
  decide

/-- C7 (amended): a `filter()` call whose pairs are all valid appends
`field comparator value connective` clauses in the supplied order, and then
strips exactly the buffer's final token — which is the trailing dangling
connective of the appended clauses — never an interior one. -/
theorem c7_filter_append_order (qb : QueryBuilder) (comparator boolean : String)
    (kwargs : List (String × String))
    (hv : ∀ p ∈ kwargs, ((valid_keyvals qb.model).map (·.1)).contains p.1 = true)
    (hne : kwargs ≠ []) :
    (qb.filter comparator boolean kwargs).2 = Option.none
    ∧ (qb.filter comparator boolean kwargs).1.query_tokens
        = qb.query_tokens
          ++ (kwargs.flatMap (fun p => [p.1, comparator, p.2, boolean])).dropLast
    ∧ (kwargs.flatMap (fun p => [p.1, comparator, p.2, boolean])).getLast?
        = some boolean := by
  rw [filter_all_valid qb comparator boolean kwargs hv hne]
  exact ⟨rfl, rfl, flatMap_clause_getLast comparator boolean kwargs hne⟩

theorem c7_filter_append_order_witness :
    (personQB.filter "=" "AND" [("name", "x"), ("age", "30")]).2 = Option.none
    ∧ (personQB.filter "=" "AND" [("name", "x"), ("age", "30")]).1.query_tokens
        = personQB.query_tokens
          ++ ([("name", "x"), ("age", "30")].flatMap
              (fun p => [p.1, "=", p.2, "AND"])).dropLast
    ∧ ([("name", "x"), ("age", "30")].flatMap
        (fun p => [p.1, "=", p.2, "AND"])).getLast? = some "AND" :=
  c7_filter_append_order personQB "=" "AND" [("name", "x"), ("age", "30")]
    (by decide) (by decide)

/-- C8 (counterexample): `filter()` hitting an invalid field after a valid
one raises InvalidColumn but leaves the valid pair's clause (dangling
connective included) appended to the buffer — the buffer is not as it was
before the call. -/
theorem c8_invalid_field_partial_append :
    (personQB.filter "=" "AND" [("age", "30"), ("bogus", "1")]).2
      = some Err.invalidColumn
    ∧ (personQB.filter "=" "AND" [("age", "30"), ("bogus", "1")]).1.query_tokens
        = ["age", "=", "30", "AND"]
    ∧ ["age", "=", "30", "AND"] ≠ personQB.query_tokens := by
  decide

/-- C8 (amended): `filter()` whose pairs contain an invalid field after zero
or more valid ones fails with InvalidColumn, and the buffer keeps the
clauses of the pairs processed before the invalid one (no trailing strip is
applied); the buffer is unchanged exactly when the invalid field comes
first. -/
theorem c8_invalid_column_partial_state (qb : QueryBuilder)
    (comparator boolean : String)
    (pre : List (String × String)) (k v : String) (rest : List (String × String))
    (hpre : ∀ p ∈ pre, ((valid_keyvals qb.model).map (·.1)).contains p.1 = true)
    (hk : ((valid_keyvals qb.model).map (·.1)).contains k = false) :
    qb.filter comparator boolean (pre ++ (k, v) :: rest)
      = ({ qb with query_tokens := qb.query_tokens
            ++ pre.flatMap (fun p => [p.1, comparator, p.2, boolean]) },
         some Err.invalidColumn) := by
  unfold QueryBuilder.filter
  rw [filterLoop_until_invalid _ comparator boolean pre k v rest _ hpre hk]

theorem c8_invalid_column_partial_state_witness :
    personQB.filter "=" "AND" ([("age", "30")] ++ ("bogus", "1") :: [])
      = ({ personQB with query_tokens := personQB.query_tokens
            ++ [("age", "30")].flatMap (fun p => [p.1, "=", p.2, "AND"]) },
         some Err.invalidColumn) :=
  c8_invalid_column_partial_state personQB "=" "AND" [("age", "30")] "bogus" "1" []
    (by decide) (by decide)

/-- C9: with a table whose columns are the descriptor's declared fields and
whose rows all carry exactly those columns, every record-producing or
row-storing operation preserves the invariant: `save` returns a record whose
non-id field names are still exactly the descriptor's fields and stores only
rows with exactly those columns; `get` hydrates records with exactly those
fields; `update` leaves every stored row with exactly those columns. -/
theorem c9_field_set_preserved (m : Model) (t : Table) (obj : Record)
    (hcols : t.cols = modelFields m)
    (hid : t.cols.contains "id" = false)
    (hrows : ∀ r ∈ t.rows, r.2.map Prod.fst = t.cols)
    (hobj : nonIdKeys obj = modelFields m) :
    (∀ t' r', Manager.save t obj = (t', Except.ok r') →
        nonIdKeys r' = modelFields m
        ∧ ∀ r ∈ t'.rows, r.2.map Prod.fst = modelFields m)
    ∧ (∀ i r, Manager.get t i = Except.ok r → nonIdKeys r = modelFields m)
    ∧ (∀ r ∈ (Manager.update t obj).1.rows, r.2.map Prod.fst = modelFields m) := by
  refine ⟨?_, ?_, ?_⟩
  · intro t' r' h
    simp only [Manager.save] at h
    split at h
    · simp at h
    · split at h
      · simp at h
      · split at h
        · simp only [Prod.mk.injEq, Except.ok.injEq] at h
          obtain ⟨ht, hr⟩ := h
          subst ht
          subst hr
          constructor
          · exact (nonIdKeys_setAttr_id obj _).trans hobj
          · intro r hrmem
            rcases List.mem_append.mp hrmem with hold | hnew
            · exact (hrows r hold).trans hcols
            · simp only [List.mem_singleton] at hnew
              subst hnew
              simp only [List.map_map]
              have : (Prod.fst ∘ fun c =>
                  (c, (getAttr (cut_attrs obj "id") c).getD Value.none))
                  = fun c : String => c := rfl
              rw [this, List.map_id', hcols]
        · simp at h
  · intro i r h
    unfold Manager.get at h
    cases hfind : t.rows.find? (fun r => r.1 == i) with
    | none => rw [hfind] at h; simp at h
    | some pr =>
      rw [hfind] at h
      obtain ⟨j, row⟩ := pr
      simp only [Manager.create, Except.ok.injEq] at h
      subst h
      have hmem := List.mem_of_find?_eq_some hfind
      have hkeys : row.map Prod.fst = t.cols := hrows _ hmem
      have hstep : nonIdKeys (("id", Value.int j) :: row) = nonIdKeys row := by
        simp [nonIdKeys, List.filter_cons]
      rw [hstep, nonIdKeys_of_keys_eq row t.cols hkeys hid, hcols]
  · intro r hrmem
    by_cases hemp : (cut_attrs obj "id").isEmpty = true
    · simp only [Manager.update, hemp, if_true] at hrmem
      exact (hrows r hrmem).trans hcols
    · have hemp' : (cut_attrs obj "id").isEmpty = false := by simpa using hemp
      by_cases hall : (cut_attrs obj "id").all (fun p => t.cols.contains p.1) = true
      · simp only [Manager.update, hemp', Bool.false_eq_true, if_false, hall,
          if_true] at hrmem
        rcases List.mem_map.mp hrmem with ⟨r₀, hr₀, hfr⟩
        subst hfr
        split
        · simp only [List.map_map]
          have hfst : ∀ c ∈ r₀.2,
              (Prod.fst ∘ fun c => match getAttr (cut_attrs obj "id") c.1 with
                | some v => (c.1, v)
                | Option.none => c) c = Prod.fst c := by
            intro c _
            cases hgc : getAttr (cut_attrs obj "id") c.1 <;> simp [hgc]
          rw [List.map_congr_left hfst]
          exact (hrows r₀ hr₀).trans hcols
        · exact (hrows r₀ hr₀).trans hcols
      · have hall' : (cut_attrs obj "id").all (fun p => t.cols.contains p.1) = false := by
          simpa using hall
        simp only [Manager.update, hemp', Bool.false_eq_true, hall', if_false] at hrmem
        exact (hrows r hrmem).trans hcols

theorem c9_field_set_preserved_witness :
    nonIdKeys [("name", Value.str "b"), ("age", Value.int 4), ("id", Value.int 2)]
      = modelFields Person :=
  ((c9_field_set_preserved Person personTable
      [("name", Value.str "b"), ("age", Value.int 4)]
      (by decide) (by decide) (by decide) (by decide)).1
    ⟨["name", "age"], 2,
      [(1, [("name", Value.str "a"), ("age", Value.int 3)]),
       (2, [("name", Value.str "b"), ("age", Value.int 4)])], [1, 2]⟩
    [("name", Value.str "b"), ("age", Value.int 4), ("id", Value.int 2)]
    rfl).1

/-- C10 (counterexample): a record carrying only a preset absent id has an
empty `cut_attrs` result, so the built statement is `insert into t () values ()`
— a sqlite3 syntax error: `save` raises with the table unchanged, no fresh
rowid is generated and the record's id is not overwritten, refuting the
claim's unconditional success at this input (the id is set and absent from
the table). -/
theorem c10_empty_insert_rejected :
    Manager.save personTable [("id", Value.int 9)]
      = (personTable, Except.error Err.sqlSyntax)
    ∧ getAttr [("id", Value.int 9)] "id" = some (Value.int 9)
    ∧ Manager.has personTable 9 = false :=
  ⟨rfl, rfl, rfl⟩

/-- C10 (amended): `Manager.save` on a record whose `id` attribute is set
but absent from the table, and whose `cut_attrs` result is non-empty (the
INSERT's column list is not empty) and names only declared columns, does not
insert that id: the INSERT carries only the non-id attributes (declared
columns missing from them become NULL), the engine generates the fresh rowid
`seq + 1`, and the record's `id` attribute is overwritten with that
generated rowid. -/
theorem c10_preset_id_not_inserted (t : Table) (obj : Record) (i : Int)
    (hid : getAttr obj "id" = some (Value.int i))
    (hnot : Manager.has t i = false)
    (hne : (cut_attrs obj "id").isEmpty = false)
    (hkeys : (cut_attrs obj "id").all (fun p => t.cols.contains p.1) = true) :
    (Manager.save t obj).2 = Except.ok (setAttr obj "id" (Value.int (t.seq + 1)))
    ∧ (Manager.save t obj).1.rows
        = t.rows ++ [(t.seq + 1,
            t.cols.map (fun c =>
              (c, (getAttr (cut_attrs obj "id") c).getD Value.none)))]
    ∧ (Manager.save t obj).1.seq = t.seq + 1
    ∧ getAttr (setAttr obj "id" (Value.int (t.seq + 1))) "id"
        = some (Value.int (t.seq + 1)) := by
  have hsave : Manager.save t obj
      = ({ cols := t.cols, seq := t.seq + 1,
           rows := t.rows ++ [(t.seq + 1,
             t.cols.map (fun c =>
               (c, (getAttr (cut_attrs obj "id") c).getD Value.none)))],
           assigned := t.assigned ++ [t.seq + 1] },
         Except.ok (setAttr obj "id" (Value.int (t.seq + 1)))) := by
    simp only [Manager.save, hid]
    simp [hnot, hne, hkeys]
    intro x y hm
    have := List.all_eq_true.mp hkeys (x, y) hm
    simpa using this
  rw [hsave]
  exact ⟨rfl, rfl, rfl, getAttr_setAttr_self obj "id" _⟩

theorem c10_preset_id_not_inserted_witness :
    (Manager.save personTable
        [("id", Value.int 9), ("name", Value.str "b"), ("age", Value.int 7)]).2
      = Except.ok (setAttr
          [("id", Value.int 9), ("name", Value.str "b"), ("age", Value.int 7)]
          "id" (Value.int (personTable.seq + 1)))
    ∧ (Manager.save personTable
        [("id", Value.int 9), ("name", Value.str "b"), ("age", Value.int 7)]).1.rows
      = personTable.rows ++ [(personTable.seq + 1,
          personTable.cols.map (fun c =>
            (c, (getAttr (cut_attrs
              [("id", Value.int 9), ("name", Value.str "b"), ("age", Value.int 7)]
              "id") c).getD Value.none)))]
    ∧ (Manager.save personTable
        [("id", Value.int 9), ("name", Value.str "b"), ("age", Value.int 7)]).1.seq
      = personTable.seq + 1
    ∧ getAttr (setAttr
          [("id", Value.int 9), ("name", Value.str "b"), ("age", Value.int 7)]
          "id" (Value.int (personTable.seq + 1))) "id"
      = some (Value.int (personTable.seq + 1)) :=
  c10_preset_id_not_inserted personTable
    [("id", Value.int 9), ("name", Value.str "b"), ("age", Value.int 7)] 9
    (by decide) (by decide) (by decide) (by decide)
